import Mathlib

/-!
Verification of the geostory ephemeral compressed document store.

The definitions below are a shallow embedding of the canonical server
variant (the Brotli-compressed story storage): its validation chain,
codec (Brotli + base64), identifier generator, durable store operations,
retry machinery and the two HTTP handlers (POST /api/stories and
GET /api/stories/:id).

Modelling conventions:
* JS strings fed to `Buffer.from(s, "utf8")` are modelled as their UTF-8
  byte sequences (`List Nat`, each byte < 256).
* Epoch seconds (`now()`) are `Nat`; `expires_at` is `Option ℚ` because
  the code computes `created + ttlNum * 86400` with a JS number `ttlNum`
  that may be non-integral.
* `zlib.brotliCompressSync` / `brotliDecompressSync` are external
  primitives; they are modelled as an abstract lossless `Codec`
  (compress total, decompress partial, decompress ∘ compress = some).
* `JSON.stringify` / `JSON.parse` are external builtins; they are passed
  as parameters (`stringify : JsVal → String`,
  `parse : List Nat → Option JsVal`).
* `Math.floor(Math.random() * 200)` is modelled as a per-attempt jitter
  stream `jitter : Nat → Nat` with values below 200 where relevant.
-/

namespace Geostory

/-- MAX_LAYERS_FREE from the source. -/
def MAX_LAYERS_FREE : Nat := 3

/-- MAX_TITLE_LEN from the source. -/
def MAX_TITLE_LEN : Nat := 160

/-- MAX_STATE_BYTES from the source: the ceiling on the encoded size. -/
def MAX_STATE_BYTES : Nat := 2000000

/-- JSON-compatible values, as delivered by the express JSON body parser. -/
inductive JsVal : Type where
  | null : JsVal
  | bool (b : Bool) : JsVal
  | num (q : ℚ) : JsVal
  | str (s : String) : JsVal
  | arr (xs : List JsVal) : JsVal
  | obj (fields : List (String × JsVal)) : JsVal

/-- JavaScript truthiness of a JSON value (used by `!state`). -/
def JsVal.truthy : JsVal → Bool
  | .null => false
  | .bool b => b
  | .num q => q != 0
  | .str s => s != ""
  | .arr _ => true
  | .obj _ => true

/-- Property access `v.k`: a key lookup on objects, `undefined` (none)
on every other value. -/
def JsVal.getField : JsVal → String → Option JsVal
  | .obj fs, k => (fs.find? (fun f => f.1 == k)).map (fun f => f.2)
  | _, _ => none

/-- The result of the JS `Number(·)` coercion applied to the request's
`ttlDays` field: either a finite number or a non-finite one
(NaN / ±Infinity). -/
inductive JsNumber : Type where
  | fin (q : ℚ) : JsNumber
  | nonFinite : JsNumber
  deriving DecidableEq

/-- UTF-8 encoding of one character (the byte sequence
`Buffer.from` produces for it). -/
def utf8EncodeCharBytes (c : Char) : List Nat :=
  if c.toNat < 128 then [c.toNat]
  else if c.toNat < 2048 then [192 + c.toNat / 64, 128 + c.toNat % 64]
  else if c.toNat < 65536 then
    [224 + c.toNat / 4096, 128 + (c.toNat / 64) % 64, 128 + c.toNat % 64]
  else
    [240 + c.toNat / 262144, 128 + (c.toNat / 4096) % 64,
     128 + (c.toNat / 64) % 64, 128 + c.toNat % 64]

/-- UTF-8 bytes of a string: the model of `Buffer.from(s, "utf8")`. -/
def utf8Bytes (s : String) : List Nat :=
  s.toList.foldr (fun c acc => utf8EncodeCharBytes c ++ acc) []

theorem utf8EncodeCharBytes_lt (c : Char) : ∀ b ∈ utf8EncodeCharBytes c, b < 256 := by
  have hv : c.toNat < 1114112 := by
    have h := c.valid
    have he : c.toNat = c.val.toNat := rfl
    rcases h with h | h
    · omega
    · omega
  intro b hb
  unfold utf8EncodeCharBytes at hb
  split at hb
  · simp at hb; omega
  · split at hb
    · simp at hb
      rcases hb with hb | hb <;> omega
    · split at hb
      · simp at hb
        rcases hb with hb | hb | hb <;> omega
      · simp at hb
        rcases hb with hb | hb | hb | hb <;> omega

theorem utf8Bytes_lt (s : String) : ∀ b ∈ utf8Bytes s, b < 256 := by
  unfold utf8Bytes
  induction s.toList with
  | nil => intro b hb; simp at hb
  | cons c cs ih =>
    intro b hb
    simp only [List.foldr_cons, List.mem_append] at hb
    rcases hb with hb | hb
    · exact utf8EncodeCharBytes_lt c b hb
    · exact ih b hb

/-- Standard base64 alphabet (the one `Buffer.toString("base64")` uses). -/
def b64Alphabet : List Char :=
  "ABCDEFGHIJKLMNOPQRSTUVWXYZabcdefghijklmnopqrstuvwxyz0123456789+/".toList

/-- URL-safe base64 alphabet (the one `Buffer.toString("base64url")` uses). -/
def b64urlAlphabet : List Char :=
  "ABCDEFGHIJKLMNOPQRSTUVWXYZabcdefghijklmnopqrstuvwxyz0123456789-_".toList

/-- Character for a sextet value in standard base64. -/
def sextetChar (n : Nat) : Char := b64Alphabet.getD n 'A'

/-- Character for a sextet value in URL-safe base64. -/
def urlSextetChar (n : Nat) : Char := b64urlAlphabet.getD n 'A'

/-- Sextet value of a standard base64 character, none for a character
outside the alphabet. -/
def charSextet (c : Char) : Option Nat :=
  if c ∈ b64Alphabet then some (b64Alphabet.indexOf c) else none

/-- Standard base64 encoding of a byte sequence, with `=` padding
(the model of `buf.toString("base64")`). -/
def b64EncodeChunks : List Nat → List Char
  | [] => []
  | [b1] => [sextetChar (b1 / 4), sextetChar ((b1 % 4) * 16), '=', '=']
  | [b1, b2] =>
      [sextetChar (b1 / 4), sextetChar ((b1 % 4) * 16 + b2 / 16),
       sextetChar ((b2 % 16) * 4), '=']
  | b1 :: b2 :: b3 :: rest =>
      sextetChar (b1 / 4) :: sextetChar ((b1 % 4) * 16 + b2 / 16) ::
      sextetChar ((b2 % 16) * 4 + b3 / 64) :: sextetChar (b3 % 64) ::
      b64EncodeChunks rest

/-- URL-safe base64 encoding of a byte sequence, without padding
(the model of `buf.toString("base64url")`). -/
def b64urlEncodeChunks : List Nat → List Char
  | [] => []
  | [b1] => [urlSextetChar (b1 / 4), urlSextetChar ((b1 % 4) * 16)]
  | [b1, b2] =>
      [urlSextetChar (b1 / 4), urlSextetChar ((b1 % 4) * 16 + b2 / 16),
       urlSextetChar ((b2 % 16) * 4)]
  | b1 :: b2 :: b3 :: rest =>
      urlSextetChar (b1 / 4) :: urlSextetChar ((b1 % 4) * 16 + b2 / 16) ::
      urlSextetChar ((b2 % 16) * 4 + b3 / 64) :: urlSextetChar (b3 % 64) ::
      b64urlEncodeChunks rest

/-- Base64 decoding back to bytes (the model of
`Buffer.from(b64, "base64")` on well-formed input; malformed input
yields none). -/
def b64DecodeChunks : List Char → Option (List Nat)
  | [] => some []
  | c1 :: c2 :: c3 :: c4 :: rest =>
      if c3 = '=' ∧ c4 = '=' ∧ rest = [] then do
        let s1 ← charSextet c1
        let s2 ← charSextet c2
        pure [s1 * 4 + s2 / 16]
      else if c4 = '=' ∧ rest = [] then do
        let s1 ← charSextet c1
        let s2 ← charSextet c2
        let s3 ← charSextet c3
        pure [s1 * 4 + s2 / 16, (s2 % 16) * 16 + s3 / 4]
      else do
        let s1 ← charSextet c1
        let s2 ← charSextet c2
        let s3 ← charSextet c3
        let s4 ← charSextet c4
        let tail ← b64DecodeChunks rest
        pure ([s1 * 4 + s2 / 16, (s2 % 16) * 16 + s3 / 4, (s3 % 4) * 64 + s4] ++ tail)
  | _ => none

theorem charSextet_sextetChar (k : Nat) (hk : k < 64) :
    charSextet (sextetChar k) = some k := by
  have h : ∀ i : Fin 64, charSextet (sextetChar i.val) = some i.val := by decide
  exact h ⟨k, hk⟩

theorem sextetChar_ne_pad (k : Nat) : sextetChar k ≠ '=' := by
  by_cases hk : k < 64
  · have h : ∀ i : Fin 64, sextetChar i.val ≠ '=' := by decide
    exact h ⟨k, hk⟩
  · unfold sextetChar
    rw [List.getD_eq_default]
    · decide
    · have : b64Alphabet.length = 64 := by decide
      omega

/-- Decoding inverts encoding on byte sequences. -/
theorem b64_roundtrip (bs : List Nat) (h : ∀ b ∈ bs, b < 256) :
    b64DecodeChunks (b64EncodeChunks bs) = some bs := by
  match bs with
  | [] => simp [b64EncodeChunks, b64DecodeChunks]
  | [b1] =>
    have h1 : b1 < 256 := h b1 (by simp)
    have e1 : charSextet (sextetChar (b1 / 4)) = some (b1 / 4) :=
      charSextet_sextetChar _ (by omega)
    have e2 : charSextet (sextetChar ((b1 % 4) * 16)) = some ((b1 % 4) * 16) :=
      charSextet_sextetChar _ (by omega)
    simp [b64EncodeChunks, b64DecodeChunks, e1, e2]
    omega
  | [b1, b2] =>
    have h1 : b1 < 256 := h b1 (by simp)
    have h2 : b2 < 256 := h b2 (by simp)
    have e1 : charSextet (sextetChar (b1 / 4)) = some (b1 / 4) :=
      charSextet_sextetChar _ (by omega)
    have e2 : charSextet (sextetChar ((b1 % 4) * 16 + b2 / 16)) =
        some ((b1 % 4) * 16 + b2 / 16) :=
      charSextet_sextetChar _ (by omega)
    have e3 : charSextet (sextetChar ((b2 % 16) * 4)) = some ((b2 % 16) * 4) :=
      charSextet_sextetChar _ (by omega)
    simp [b64EncodeChunks, b64DecodeChunks, e1, e2, e3, sextetChar_ne_pad]
    constructor
    · omega
    · omega
  | b1 :: b2 :: b3 :: rest =>
    have h1 : b1 < 256 := h b1 (by simp)
    have h2 : b2 < 256 := h b2 (by simp)
    have h3 : b3 < 256 := h b3 (by simp)
    have ih := b64_roundtrip rest (fun b hb => h b (by simp [hb]))
    have e1 : charSextet (sextetChar (b1 / 4)) = some (b1 / 4) :=
      charSextet_sextetChar _ (by omega)
    have e2 : charSextet (sextetChar ((b1 % 4) * 16 + b2 / 16)) =
        some ((b1 % 4) * 16 + b2 / 16) :=
      charSextet_sextetChar _ (by omega)
    have e3 : charSextet (sextetChar ((b2 % 16) * 4 + b3 / 64)) =
        some ((b2 % 16) * 4 + b3 / 64) :=
      charSextet_sextetChar _ (by omega)
    have e4 : charSextet (sextetChar (b3 % 64)) = some (b3 % 64) :=
      charSextet_sextetChar _ (by omega)
    simp [b64EncodeChunks, b64DecodeChunks, e1, e2, e3, e4, sextetChar_ne_pad, ih]
    refine ⟨by omega, by omega, by omega⟩

/-- Abstract lossless compressor modelling `zlib.brotliCompressSync` /
`zlib.brotliDecompressSync` (external primitives, not repository code):
compression is total, decompression is partial (it throws on invalid
input), decompression inverts compression, and compression maps byte
sequences to byte sequences. -/
structure Codec : Type where
  compress : List Nat → List Nat
  decompress : List Nat → Option (List Nat)
  decompress_compress : ∀ bs, decompress (compress bs) = some bs
  compress_bytes : ∀ bs, (∀ b ∈ bs, b < 256) → ∀ b ∈ compress bs, b < 256

/-- The identity codec, used to instantiate witnesses. -/
def trivCodec : Codec where
  compress := fun bs => bs
  decompress := fun bs => some bs
  decompress_compress := fun _ => rfl
  compress_bytes := fun _ h => h

/-- Encoding result of `encodeStateBrotliBase64`: the base64 text plus
the three byte counts the source computes. -/
structure EncodedState : Type where
  b64 : String
  rawBytes : Nat
  brBytes : Nat
  b64Bytes : Nat

/-- The source's `encodeStateBrotliBase64`: UTF-8 bytes of the JSON
string (already taken as input), Brotli compression, base64. The JSON
string argument is modelled as its UTF-8 byte sequence. -/
def encodeStateBrotliBase64 (C : Codec) (jsonBytes : List Nat) : EncodedState :=
  let compressed := C.compress jsonBytes
  let b64 := String.mk (b64EncodeChunks compressed)
  { b64 := b64
    rawBytes := jsonBytes.length
    brBytes := compressed.length
    b64Bytes := b64.length }

/-- The source's `decodeStateBrotliBase64`: base64 decoding followed by
Brotli decompression; the resulting UTF-8 text is returned as its byte
sequence. Failures (which throw in the source) are none. -/
def decodeStateBrotliBase64 (C : Codec) (b64 : String) : Option (List Nat) :=
  (b64DecodeChunks b64.toList).bind C.decompress

/-- Decode inverts encode for any byte-valued payload. -/
theorem decodeState_encodeState (C : Codec) (jsonBytes : List Nat)
    (h : ∀ b ∈ jsonBytes, b < 256) :
    decodeStateBrotliBase64 C (encodeStateBrotliBase64 C jsonBytes).b64 =
      some jsonBytes := by
  unfold decodeStateBrotliBase64 encodeStateBrotliBase64
  have htl : (String.mk (b64EncodeChunks (C.compress jsonBytes))).toList =
      b64EncodeChunks (C.compress jsonBytes) := rfl
  rw [htl, b64_roundtrip _ (C.compress_bytes jsonBytes h)]
  simp [C.decompress_compress]

/-- The source's `slug`: 16 cryptographically random bytes,
base64url-encoded, truncated to `n` characters (default 7, the value
the publish handler passes). The random bytes are the argument. -/
def slug (bytes : List Nat) (n : Nat := 7) : String :=
  String.mk ((b64urlEncodeChunks bytes).take n)

/-- A character of the class `[A-Za-z0-9_-]` from the id regex. -/
def idCharOk (c : Char) : Bool :=
  ('A' ≤ c && c ≤ 'Z') || ('a' ≤ c && c ≤ 'z') || ('0' ≤ c && c ≤ '9') ||
    c = '_' || c = '-'

/-- The id regex `^[A-Za-z0-9_-]{5,20}$` from the GET handler. -/
def idPattern (s : String) : Bool :=
  5 ≤ s.length && s.length ≤ 20 && s.toList.all idCharOk

theorem idCharOk_urlSextetChar (k : Nat) : idCharOk (urlSextetChar k) = true := by
  by_cases hk : k < 64
  · have h : ∀ i : Fin 64, idCharOk (urlSextetChar i.val) = true := by decide
    exact h ⟨k, hk⟩
  · unfold urlSextetChar
    rw [List.getD_eq_default]
    · decide
    · have : b64urlAlphabet.length = 64 := by decide
      omega

theorem b64urlEncodeChunks_all_ok (bs : List Nat) :
    ∀ c ∈ b64urlEncodeChunks bs, idCharOk c = true := by
  match bs with
  | [] => intro c hc; simp [b64urlEncodeChunks] at hc
  | [b1] =>
    intro c hc
    simp [b64urlEncodeChunks] at hc
    rcases hc with hc | hc <;> simp [hc, idCharOk_urlSextetChar]
  | [b1, b2] =>
    intro c hc
    simp [b64urlEncodeChunks] at hc
    rcases hc with hc | hc | hc <;> simp [hc, idCharOk_urlSextetChar]
  | b1 :: b2 :: b3 :: rest =>
    intro c hc
    have ih := b64urlEncodeChunks_all_ok rest
    simp [b64urlEncodeChunks] at hc
    rcases hc with hc | hc | hc | hc | hc
    · simp [hc, idCharOk_urlSextetChar]
    · simp [hc, idCharOk_urlSextetChar]
    · simp [hc, idCharOk_urlSextetChar]
    · simp [hc, idCharOk_urlSextetChar]
    · exact ih c hc

theorem b64urlEncodeChunks_length (bs : List Nat) :
    (b64urlEncodeChunks bs).length =
      (bs.length / 3) * 4 +
        (if bs.length % 3 = 0 then 0 else if bs.length % 3 = 1 then 2 else 3) := by
  match bs with
  | [] => simp [b64urlEncodeChunks]
  | [b1] => simp [b64urlEncodeChunks]
  | [b1, b2] => simp [b64urlEncodeChunks]
  | b1 :: b2 :: b3 :: rest =>
    have ih := b64urlEncodeChunks_length rest
    simp only [b64urlEncodeChunks, List.length_cons, ih]
    have h3 : (rest.length + 1 + 1 + 1) % 3 = rest.length % 3 := by omega
    have h4 : (rest.length + 1 + 1 + 1) / 3 = rest.length / 3 + 1 := by omega
    simp only [h3, h4]
    by_cases h0 : rest.length % 3 = 0 <;> by_cases h1 : rest.length % 3 = 1 <;>
      simp [h0, h1] <;> omega

/-- A row of the `stories` table. Per the schema, `expires_at` is
nullable; it is rational-valued because the code stores
`created + ttlNum * 86400` with a JS number `ttlNum`. -/
structure StoryRow : Type where
  id : String
  created_at : Nat
  expires_at : Option ℚ
  title : String
  state_json : String
  encoding : Option String

/-- The `stories` table, in insertion order. -/
abbrev Store : Type := List StoryRow

/-- SELECT * FROM stories WHERE id = ?. -/
def selectById (store : Store) (id : String) : Option StoryRow :=
  List.find? (fun r => r.id == id) store

/-- INSERT INTO stories. -/
def insertRow (store : Store) (row : StoryRow) : Store :=
  List.append store [row]

/-- The sweeper's SQL predicate:
`expires_at IS NOT NULL AND expires_at < now`. -/
def sweepExpired (e : Option ℚ) (now : Nat) : Bool :=
  match e with
  | none => false
  | some v => v < (now : ℚ)

/-- The GET handler's read-time expiry test, with JS truthiness:
`row.expires_at && row.expires_at < now()` (null and 0 are falsy). -/
def rowExpiredTruthy (e : Option ℚ) (now : Nat) : Bool :=
  match e with
  | none => false
  | some v => v != 0 && v < (now : ℚ)

/-- DELETE FROM stories WHERE expires_at IS NOT NULL AND expires_at < ?,
returning the surviving table and the number of deleted rows
(`r.changes`). -/
def deleteExpired (now : Nat) (store : Store) : Store × Nat :=
  let kept := List.filter (fun r => !sweepExpired r.expires_at now) store
  (kept, List.length store - kept.length)

/-- Outcome of one `db.run` attempt against the engine. -/
inductive DbAttempt : Type where
  | ok : DbAttempt
  | busy : DbAttempt
  | err : DbAttempt
  deriving DecidableEq

/-- Result of `runWithRetry`, carrying the backoff delays waited, in
order. `busyFail` is the rethrown SQLITE_BUSY after retries are
exhausted; `otherFail` is any other rethrown error. -/
inductive RetryResult : Type where
  | success (delays : List Nat) : RetryResult
  | busyFail (delays : List Nat) : RetryResult
  | otherFail (delays : List Nat) : RetryResult
  deriving DecidableEq

/-- Prepend one waited delay to a retry outcome. -/
def RetryResult.consDelay (d : Nat) : RetryResult → RetryResult
  | .success ds => .success (d :: ds)
  | .busyFail ds => .busyFail (d :: ds)
  | .otherFail ds => .otherFail (d :: ds)

/-- The source's `runWithRetry` (insert path): try `db.run`; on
SQLITE_BUSY with retries left wait `200 + Math.floor(Math.random()*200)`
milliseconds and recurse with one retry fewer; otherwise rethrow.
`attempts k` is the engine's outcome of the k-th attempt and `jitter k`
the random jitter drawn before the k-th wait. -/
def runWithRetryModel (attempts : Nat → DbAttempt) (jitter : Nat → Nat)
    (retries k : Nat) : RetryResult :=
  match retries with
  | 0 =>
    match attempts k with
    | .ok => .success []
    | .err => .otherFail []
    | .busy => .busyFail []
  | r + 1 =>
    match attempts k with
    | .ok => .success []
    | .err => .otherFail []
    | .busy =>
      RetryResult.consDelay (200 + jitter k)
        (runWithRetryModel attempts jitter r (k + 1))

/-- Result of one `purgeExpired` invocation: either the DELETE ran
(`done`, with the count and the updated table) or the final error was
logged and swallowed (`swallowed`). Delays are the backoffs waited. -/
inductive PurgeResult : Type where
  | done (deleted : Nat) (delays : List Nat) (store : Store) : PurgeResult
  | swallowed (delays : List Nat) (store : Store) : PurgeResult

/-- Prepend one waited backoff to a purge outcome. -/
def PurgeResult.consDelay (d : Nat) : PurgeResult → PurgeResult
  | .done n ds st => .done n (d :: ds) st
  | .swallowed ds st => .swallowed (d :: ds) st

/-- The source's `purgeExpired`: run the DELETE; on SQLITE_BUSY with
retries left wait `(4 - retries) * 300 + Math.floor(Math.random()*200)`
milliseconds and recurse with one retry fewer; any other failure (or
exhaustion) is logged and swallowed. -/
def purgeExpiredModel (attempts : Nat → DbAttempt) (jitter : Nat → Nat)
    (now : Nat) (store : Store) (retries k : Nat) : PurgeResult :=
  match retries with
  | 0 =>
    match attempts k with
    | .ok => .done (deleteExpired now store).2 [] (deleteExpired now store).1
    | .err => .swallowed [] store
    | .busy => .swallowed [] store
  | r + 1 =>
    match attempts k with
    | .ok => .done (deleteExpired now store).2 [] (deleteExpired now store).1
    | .err => .swallowed [] store
    | .busy =>
      PurgeResult.consDelay ((4 - (r + 1)) * 300 + jitter k)
        (purgeExpiredModel attempts jitter now store r (k + 1))

/-- The destructured request body `{ state, ttlDays = 7 }`. A missing
field is none; `ttlDays` carries the result of the `Number(·)` coercion
the handler applies to the supplied value. -/
structure PublishBody : Type where
  state : Option JsVal
  ttlDays : Option JsNumber

/-- Outcome of POST /api/stories. The four validation rejections and the
size rejection are 400/413 responses; `dbBusy` is the 503 mapped from an
exhausted SQLITE_BUSY; `serverError` the generic 500. `tooLarge` carries
the byte counts the response reports (encoded, raw, compressed, limit). -/
inductive PublishOutcome : Type where
  | invalidShape : PublishOutcome
  | emptyLayers : PublishOutcome
  | tooManyLayers : PublishOutcome
  | invalidTTL : PublishOutcome
  | tooLarge (b64Bytes rawBytes brBytes limit : Nat) : PublishOutcome
  | dbBusy : PublishOutcome
  | serverError : PublishOutcome
  | ok (id : String) (expires : ℚ) : PublishOutcome
  deriving DecidableEq

/-- The JS `String.prototype.trim()` builtin, modelled over the
character list (leading and trailing whitespace removed). -/
def jsTrim (s : String) : String :=
  String.mk (((s.toList.dropWhile Char.isWhitespace).reverse.dropWhile
    Char.isWhitespace).reverse)

/-- The handler's title computation: a string title that is non-empty
after trimming is trimmed and truncated to MAX_TITLE_LEN characters;
anything else becomes "Untitled". -/
def computedTitle (st : JsVal) : String :=
  match st.getField "title" with
  | some (.str s) =>
    if jsTrim s ≠ "" then (jsTrim s).take MAX_TITLE_LEN else "Untitled"
  | _ => "Untitled"

/-- The POST /api/stories handler: validation chain, encoding, size
ceiling, id generation (the fresh id is the `id` argument), retried
insert. `created` is the `now()` reading; `attempts`/`jitter` drive the
engine model of the insert. -/
def publishStory (C : Codec) (stringify : JsVal → String)
    (body : Option PublishBody) (id : String) (created : Nat)
    (attempts : Nat → DbAttempt) (jitter : Nat → Nat) (store : Store) :
    PublishOutcome × Store :=
  let b := body.getD { state := none, ttlDays := none }
  match b.state with
  | none => (.invalidShape, store)
  | some st =>
    if !st.truthy then (.invalidShape, store)
    else
      match st.getField "layers" with
      | some (.arr layers) =>
        if layers.length = 0 then (.emptyLayers, store)
        else if layers.length > MAX_LAYERS_FREE then (.tooManyLayers, store)
        else
          let title := computedTitle st
          match b.ttlDays.getD (.fin 7) with
          | .nonFinite => (.invalidTTL, store)
          | .fin q =>
            if q < 1 ∨ q > 60 then (.invalidTTL, store)
            else
              let raw := utf8Bytes (stringify st)
              let e := encodeStateBrotliBase64 C raw
              if e.b64Bytes > MAX_STATE_BYTES then
                (.tooLarge e.b64Bytes e.rawBytes e.brBytes MAX_STATE_BYTES, store)
              else
                let expires : ℚ := (created : ℚ) + q * 86400
                let row : StoryRow :=
                  { id := id, created_at := created, expires_at := some expires
                    title := title, state_json := e.b64, encoding := some "br64" }
                match runWithRetryModel attempts jitter 3 0 with
                | .success _ => (.ok id expires, insertRow store row)
                | .busyFail _ => (.dbBusy, store)
                | .otherFail _ => (.serverError, store)
      | _ => (.invalidShape, store)

/-- Outcome of GET /api/stories/:id. `corrupt` (the 500 "Corrupt story
payload") carries no data: the stored bytes are never exposed. -/
inductive ResolveOutcome : Type where
  | invalidId : ResolveOutcome
  | notFound : ResolveOutcome
  | gone : ResolveOutcome
  | corrupt : ResolveOutcome
  | dbBusy : ResolveOutcome
  | serverError : ResolveOutcome
  | ok (id title : String) (doc : JsVal) : ResolveOutcome

/-- The GET handler's decode dispatch: on tag `br64` base64+Brotli then
JSON.parse; on any other tag value (or no tag, the legacy records) the
stored text is parsed as plain JSON. -/
def decodeRow (C : Codec) (parse : List Nat → Option JsVal) (row : StoryRow) :
    Option JsVal :=
  if row.encoding = some "br64" then
    (decodeStateBrotliBase64 C row.state_json).bind parse
  else
    parse (utf8Bytes row.state_json)

/-- The GET /api/stories/:id handler: id-shape check before any store
access, single (unretried) read, truthiness expiry check, tag-dispatched
decode, decode failure mapped to `corrupt`. -/
def resolveStory (C : Codec) (parse : List Nat → Option JsVal)
    (attempts : Nat → DbAttempt) (id : String) (now : Nat) (store : Store) :
    ResolveOutcome :=
  if !idPattern id then .invalidId
  else
    match attempts 0 with
    | .busy => .dbBusy
    | .err => .serverError
    | .ok =>
      match selectById store id with
      | none => .notFound
      | some row =>
        if rowExpiredTruthy row.expires_at now then .gone
        else
          match decodeRow C parse row with
          | none => .corrupt
          | some doc => .ok row.id row.title doc

/-- Parse function recognising exactly one serialized document; used to
instantiate the abstract `JSON.parse` parameter on concrete inputs. -/
def constParse (s : String) (D : JsVal) : List Nat → Option JsVal :=
  fun bs => if bs = utf8Bytes s then some D else none

theorem selectById_insertRow (store : Store) (row : StoryRow) (id : String)
    (hfresh : selectById store id = none) (hid : row.id = id) :
    selectById (insertRow store row) id = some row := by
  unfold selectById insertRow
  unfold selectById at hfresh
  have : List.append store [row] = store ++ [row] := rfl
  rw [this, List.find?_append, hfresh]
  simp [hid]

/-- C9: the sweep is idempotent — running the delete-expired operation
twice in a row with no intervening writes leaves the second run with
zero deletions. -/
theorem sweep_idempotent (now : Nat) (store : Store) :
    (deleteExpired now (deleteExpired now store).1).2 = 0 := by
  unfold deleteExpired
  simp [List.filter_filter]

/-- C8: every id the generator can produce from 16 random bytes matches
the shape `[A-Za-z0-9_-]` with length in [5,20]; and a resolve call
whose id fails that shape is rejected before any storage access — the
response is `invalidId` for every store and every engine behaviour. -/
theorem id_shape_and_gate (bytes : List Nat) (id : String) (C : Codec)
    (parse : List Nat → Option JsVal) (attempts : Nat → DbAttempt)
    (now : Nat) (store : Store) :
    (bytes.length = 16 → idPattern (slug bytes) = true) ∧
    (idPattern id = false →
      resolveStory C parse attempts id now store = .invalidId) := by
  constructor
  · intro hlen
    unfold slug idPattern
    have hlist : (String.mk ((b64urlEncodeChunks bytes).take 7)).toList =
        (b64urlEncodeChunks bytes).take 7 := rfl
    have hlen22 : (b64urlEncodeChunks bytes).length = 22 := by
      rw [b64urlEncodeChunks_length, hlen]
      norm_num
    have hlen7 : (String.mk ((b64urlEncodeChunks bytes).take 7)).length = 7 := by
      have h0 : (String.mk ((b64urlEncodeChunks bytes).take 7)).length =
          ((b64urlEncodeChunks bytes).take 7).length := rfl
      rw [h0, List.length_take, hlen22]
      decide
    rw [hlist, hlen7]
    simp only [Bool.and_eq_true, decide_eq_true_eq, List.all_eq_true]
    refine ⟨⟨by norm_num, by norm_num⟩, ?_⟩
    intro c hc
    exact b64urlEncodeChunks_all_ok bytes c (List.mem_of_mem_take hc)
  · intro hbad
    unfold resolveStory
    simp [hbad]

/-- Witness for C8 at concrete inputs: 16 zero bytes generate a
well-shaped id, and the id "ab" (too short) is rejected with no store
consulted. -/
theorem id_shape_and_gate_witness :
    ((List.replicate 16 (0 : Nat)).length = 16 ∧
      idPattern (slug (List.replicate 16 (0 : Nat))) = true) ∧
    (idPattern "ab" = false ∧
      resolveStory trivCodec (constParse "null" .null) (fun _ => .ok) "ab" 0 [] =
        .invalidId) := by
  refine ⟨⟨by decide, ?_⟩, ⟨by decide, ?_⟩⟩
  · exact (id_shape_and_gate (List.replicate 16 0) "ab" trivCodec
      (constParse "null" .null) (fun _ => .ok) 0 []).1 (by decide)
  · exact (id_shape_and_gate (List.replicate 16 0) "ab" trivCodec
      (constParse "null" .null) (fun _ => .ok) 0 []).2 (by decide)

/-- C5: the decoder dispatches purely on the stored tag value. A record
tagged `br64` goes through base64+Brotli; a record with no tag is
parsed as plain JSON; a record carrying any other tag value is NOT fed
to the br64 decoder (dispatch compares the value, not mere presence)
and falls to the plain branch; and through this single dispatch a plain
record and a br64 record both decode back to their original serialized
document. -/
theorem decoder_tag_dispatch (C : Codec) (parse : List Nat → Option JsVal)
    (row : StoryRow) (t : String) (s : String) (D : JsVal)
    (id ti : String) (cr : Nat) (e : Option ℚ)
    (hparse : parse (utf8Bytes s) = some D) :
    (row.encoding = none → decodeRow C parse row = parse (utf8Bytes row.state_json)) ∧
    (row.encoding = some t → t ≠ "br64" →
      decodeRow C parse row = parse (utf8Bytes row.state_json)) ∧
    (row.encoding = some "br64" →
      decodeRow C parse row = (decodeStateBrotliBase64 C row.state_json).bind parse) ∧
    (decodeRow C parse
        { id := id, created_at := cr, expires_at := e, title := ti,
          state_json := s, encoding := none } = some D) ∧
    (decodeRow C parse
        { id := id, created_at := cr, expires_at := e, title := ti,
          state_json := (encodeStateBrotliBase64 C (utf8Bytes s)).b64,
          encoding := some "br64" } = some D) := by
  refine ⟨?_, ?_, ?_, ?_, ?_⟩
  · intro h
    unfold decodeRow
    simp [h]
  · intro h ht
    unfold decodeRow
    simp [h, ht]
  · intro h
    unfold decodeRow
    simp [h]
  · unfold decodeRow
    simp [hparse]
  · unfold decodeRow
    simp only [if_pos rfl]
    rw [decodeState_encodeState C (utf8Bytes s) (utf8Bytes_lt s)]
    simp [hparse]

/-- Witness for C5: with the single-document parser for `"null"`, both
a legacy plain record and a br64 record decode to the original
document, and a record tagged `"gz64"` is routed to the plain branch. -/
theorem decoder_tag_dispatch_witness :
    constParse "null" JsVal.null (utf8Bytes "null") = some JsVal.null ∧
    decodeRow trivCodec (constParse "null" JsVal.null)
      { id := "abcde", created_at := 0, expires_at := none, title := "t",
        state_json := "null", encoding := none } = some JsVal.null ∧
    decodeRow trivCodec (constParse "null" JsVal.null)
      { id := "abcde", created_at := 0, expires_at := none, title := "t",
        state_json := (encodeStateBrotliBase64 trivCodec (utf8Bytes "null")).b64,
        encoding := some "br64" } = some JsVal.null ∧
    ("gz64" ≠ "br64" ∧
      decodeRow trivCodec (constParse "null" JsVal.null)
        { id := "abcde", created_at := 0, expires_at := none, title := "t",
          state_json := "null", encoding := some "gz64" } =
        (constParse "null" JsVal.null) (utf8Bytes "null")) := by
  have hp : (constParse "null" JsVal.null) (utf8Bytes "null") = some JsVal.null := by
    unfold constParse
    simp
  have h := decoder_tag_dispatch trivCodec (constParse "null" JsVal.null)
    { id := "abcde", created_at := 0, expires_at := none, title := "t",
      state_json := "null", encoding := some "gz64" }
    "gz64" "null" JsVal.null "abcde" "t" 0 none hp
  refine ⟨hp, h.2.2.2.1, h.2.2.2.2, by decide, ?_⟩
  exact h.2.1 rfl (by decide)

/-- C7: when the stored payload of a live record fails to decode
(malformed base64, decompression failure or invalid JSON — any none
from the decode chain), resolve answers with the payload-free
`corrupt` server-fault result instead of propagating the failure, and
the response is identical for any other record with a failing payload:
no stored bytes leak into it. -/
theorem corrupt_payload_resolve (C : Codec) (parse : List Nat → Option JsVal)
    (attempts : Nat → DbAttempt) (id : String) (now : Nat)
    (store store' : Store) (row row' : StoryRow)
    (hok : attempts 0 = .ok) (hid : idPattern id = true)
    (hfind : selectById store id = some row)
    (hexp : rowExpiredTruthy row.expires_at now = false)
    (hdec : decodeRow C parse row = none)
    (hfind' : selectById store' id = some row')
    (hexp' : rowExpiredTruthy row'.expires_at now = false)
    (hdec' : decodeRow C parse row' = none) :
    resolveStory C parse attempts id now store = .corrupt ∧
    resolveStory C parse attempts id now store =
      resolveStory C parse attempts id now store' := by
  have h1 : resolveStory C parse attempts id now store = .corrupt := by
    unfold resolveStory
    simp [hid, hok, hfind, hexp, hdec]
  have h2 : resolveStory C parse attempts id now store' = .corrupt := by
    unfold resolveStory
    simp [hid, hok, hfind', hexp', hdec']
  exact ⟨h1, h1.trans h2.symm⟩

/-- Witness for C7: two concrete records with undecodable payloads — a
br64 record holding text that is not valid base64 and a plain record
whose text the parser rejects — both resolve to the bare `corrupt`
result. -/
theorem corrupt_payload_resolve_witness :
    resolveStory trivCodec (constParse "null" .null) (fun _ => .ok) "abcde" 5
      [{ id := "abcde", created_at := 0, expires_at := none, title := "t",
         state_json := "!!!", encoding := some "br64" }] = .corrupt ∧
    resolveStory trivCodec (constParse "null" .null) (fun _ => .ok) "abcde" 5
      [{ id := "abcde", created_at := 0, expires_at := none, title := "t",
         state_json := "\x7boops", encoding := none }] = .corrupt := by
  have h := corrupt_payload_resolve trivCodec (constParse "null" .null)
    (fun _ => .ok) "abcde" 5
    [{ id := "abcde", created_at := 0, expires_at := none, title := "t",
       state_json := "!!!", encoding := some "br64" }]
    [{ id := "abcde", created_at := 0, expires_at := none, title := "t",
       state_json := "\x7boops", encoding := none }]
    { id := "abcde", created_at := 0, expires_at := none, title := "t",
      state_json := "!!!", encoding := some "br64" }
    { id := "abcde", created_at := 0, expires_at := none, title := "t",
      state_json := "\x7boops", encoding := none }
    rfl (by decide) rfl rfl rfl rfl rfl rfl
  exact ⟨h.1, h.2.symm.trans h.1⟩

/-- Counterexample to C4: a record whose `expires_at` is 0 (non-null
and strictly less than the current time 1) is returned by resolve with
its document — not treated as absent — because the handler's truthiness
test skips the falsy value 0, while the sweeper's SQL predicate deletes
the same record. The two paths do not decide by the same predicate. -/
theorem expiry_read_vs_sweep_cex :
    resolveStory trivCodec (constParse "null" .null) (fun _ => .ok) "abcde" 1
      [{ id := "abcde", created_at := 0, expires_at := some 0, title := "t",
         state_json := "null", encoding := none }] = .ok "abcde" "t" .null ∧
    rowExpiredTruthy (some 0) 1 = false ∧
    sweepExpired (some 0) 1 = true ∧
    deleteExpired 1
      [{ id := "abcde", created_at := 0, expires_at := some 0, title := "t",
         state_json := "null", encoding := none }] = ([], 1) := by
  refine ⟨rfl, by decide, by decide, rfl⟩

/-- C4 as amended: the divergence is confined to the falsy value 0. For
every record whose `expires_at` is non-null, NONZERO and in the past,
resolve answers `gone` (never the document); resolve's truthiness test
and the sweeper's predicate agree on every `expires_at` other than
`some 0`; at `some 0` with a positive clock resolve keeps the record
live while the sweeper deletes it. -/
theorem expiry_read_vs_sweep_amended (C : Codec)
    (parse : List Nat → Option JsVal) (attempts : Nat → DbAttempt)
    (id : String) (now : Nat) (store : Store) (row : StoryRow) (v : ℚ)
    (e : Option ℚ)
    (hok : attempts 0 = .ok) (hid : idPattern id = true)
    (hfind : selectById store id = some row)
    (hrow : row.expires_at = some v) (hv0 : v ≠ 0)
    (hvlt : v < (now : ℚ)) (hne : e ≠ some 0) :
    resolveStory C parse attempts id now store = .gone ∧
    rowExpiredTruthy e now = sweepExpired e now ∧
    rowExpiredTruthy (some 0) now = false ∧
    (0 < now → sweepExpired (some 0) now = true) := by
  refine ⟨?_, ?_, ?_, ?_⟩
  · unfold resolveStory
    have hexp : rowExpiredTruthy row.expires_at now = true := by
      rw [hrow]
      unfold rowExpiredTruthy
      simp [hv0, hvlt]
    simp [hid, hok, hfind, hexp]
  · match e with
    | none => rfl
    | some w =>
      have hw : w ≠ 0 := by
        intro hc
        exact hne (by rw [hc])
      unfold rowExpiredTruthy sweepExpired
      simp [hw]
  · rfl
  · intro hpos
    unfold sweepExpired
    simp
    exact_mod_cast hpos

/-- Witness for C4's amended theorem at concrete inputs: an expired
record with `expires_at = 86400` is `gone` at time 86401, and the two
predicates agree there. -/
theorem expiry_read_vs_sweep_amended_witness :
    resolveStory trivCodec (constParse "null" .null) (fun _ => .ok) "abcde" 86401
      [{ id := "abcde", created_at := 0, expires_at := some 86400, title := "t",
         state_json := "null", encoding := none }] = .gone ∧
    rowExpiredTruthy (some 86400) 86401 = sweepExpired (some 86400) 86401 ∧
    rowExpiredTruthy (some 0) 86401 = false ∧
    (0 < 86401 → sweepExpired (some 0) 86401 = true) := by
  have h := expiry_read_vs_sweep_amended trivCodec (constParse "null" .null)
    (fun _ => .ok) "abcde" 86401
    [{ id := "abcde", created_at := 0, expires_at := some 86400, title := "t",
       state_json := "null", encoding := none }]
    { id := "abcde", created_at := 0, expires_at := some 86400, title := "t",
      state_json := "null", encoding := none }
    86400 (some 86400)
    rfl (by decide) rfl rfl (by norm_num) (by norm_num) (by norm_num)
  exact h

theorem runWithRetry_ok (attempts : Nat → DbAttempt) (jitter : Nat → Nat)
    (retries k : Nat) (h : attempts k = .ok) :
    runWithRetryModel attempts jitter retries k = .success [] := by
  cases retries <;> · unfold runWithRetryModel; simp [h]

/-- C2: the ceiling is checked on the encoded representation — the
base64 text after compression — not on the raw serialized bytes. Past
the validation chain, publish rejects with the size error precisely when
the encoded byte count exceeds MAX_STATE_BYTES (so a document encoding
to exactly the limit is accepted and one byte more is rejected), a
rejected document leaves the store untouched, and the rejection carries
the raw, compressed and encoded byte counts. -/
theorem size_ceiling_post_encoding (C : Codec) (stringify : JsVal → String)
    (body : Option PublishBody) (id : String) (created : Nat)
    (attempts : Nat → DbAttempt) (jitter : Nat → Nat) (store : Store)
    (st : JsVal) (layers : List JsVal) (q : ℚ) (e : EncodedState)
    (hbody : (body.getD { state := none, ttlDays := none }).state = some st)
    (htr : st.truthy = true)
    (hlay : st.getField "layers" = some (.arr layers))
    (hne0 : layers.length ≠ 0)
    (hle : ¬ layers.length > MAX_LAYERS_FREE)
    (httl : (body.getD { state := none, ttlDays := none }).ttlDays.getD
      (.fin 7) = .fin q)
    (hq : ¬ (q < 1 ∨ q > 60))
    (he : e = encodeStateBrotliBase64 C (utf8Bytes (stringify st))) :
    (e.b64Bytes > MAX_STATE_BYTES →
      publishStory C stringify body id created attempts jitter store =
        (.tooLarge e.b64Bytes e.rawBytes e.brBytes MAX_STATE_BYTES, store)) ∧
    (¬ e.b64Bytes > MAX_STATE_BYTES →
      (∀ n r b l, (publishStory C stringify body id created attempts jitter
          store).1 ≠ .tooLarge n r b l) ∧
      (attempts 0 = .ok →
        publishStory C stringify body id created attempts jitter store =
          (.ok id ((created : ℚ) + q * 86400),
           insertRow store
             { id := id, created_at := created,
               expires_at := some ((created : ℚ) + q * 86400),
               title := computedTitle st, state_json := e.b64,
               encoding := some "br64" }))) := by
  subst he
  constructor
  · intro hbig
    unfold publishStory
    simp [hbody, htr, hlay, hne0, hle, httl, hq, hbig]
  · intro hsmall
    constructor
    · intro n r b l
      unfold publishStory
      simp [hbody, htr, hlay, hne0, hle, httl, hq, hsmall]
      cases hatt : runWithRetryModel attempts jitter 3 0 <;> simp
    · intro hatt
      unfold publishStory
      rw [runWithRetry_ok attempts jitter 3 0 hatt]
      simp [hbody, htr, hlay, hne0, hle, httl, hq, hsmall]

/-- One-layer document used to instantiate witnesses. -/
def docW : JsVal := .obj [("layers", .arr [.null]), ("title", .str "  A  ")]

/-- Witness for C2 at a concrete input: the one-layer document with the
identity codec encodes to 8 bytes, far below the ceiling, is not
rejected as too large, and is persisted with the br64 tag. -/
theorem size_ceiling_post_encoding_witness :
    ¬ (encodeStateBrotliBase64 trivCodec (utf8Bytes "null")).b64Bytes >
        MAX_STATE_BYTES ∧
    (∀ n r b l,
      (publishStory trivCodec (fun _ => "null") (some ⟨some docW, none⟩)
          "abcdefg" 100 (fun _ => .ok) (fun _ => 0) []).1 ≠ .tooLarge n r b l) ∧
    publishStory trivCodec (fun _ => "null") (some ⟨some docW, none⟩)
        "abcdefg" 100 (fun _ => .ok) (fun _ => 0) [] =
      (.ok "abcdefg" ((100 : ℚ) + 7 * 86400),
       insertRow []
         { id := "abcdefg", created_at := 100,
           expires_at := some ((100 : ℚ) + 7 * 86400),
           title := computedTitle docW,
           state_json := (encodeStateBrotliBase64 trivCodec (utf8Bytes "null")).b64,
           encoding := some "br64" }) := by
  have h := size_ceiling_post_encoding trivCodec (fun _ => "null")
    (some ⟨some docW, none⟩) "abcdefg" 100 (fun _ => .ok) (fun _ => 0) []
    docW [JsVal.null] 7 (encodeStateBrotliBase64 trivCodec (utf8Bytes "null"))
    rfl (by decide) rfl (by decide) (by decide) rfl (by norm_num) rfl
  have hsmall :
      ¬ (encodeStateBrotliBase64 trivCodec (utf8Bytes "null")).b64Bytes >
        MAX_STATE_BYTES := by decide
  exact ⟨hsmall, (h.2 hsmall).1, (h.2 hsmall).2 rfl⟩

/-- C3: the validation chain runs in the specified order and
short-circuits at the first failure, each failure leaving the store
unchanged: a missing/falsy state or a non-array `layers` is an invalid
shape; then an empty `layers` is rejected (whatever the rest of the
request holds); then more than MAX_LAYERS_FREE layers; then a supplied
`ttlDays` that is not a finite number in [1,60] (with 7 the default
when absent); titles are trimmed, truncated to MAX_TITLE_LEN or
defaulted to "Untitled"; and a fully valid request is persisted with
exactly those values. -/
theorem validation_order (C : Codec) (stringify : JsVal → String)
    (body : Option PublishBody) (id : String) (created : Nat)
    (attempts : Nat → DbAttempt) (jitter : Nat → Nat) (store : Store) :
    ((body.getD { state := none, ttlDays := none }).state = none →
      publishStory C stringify body id created attempts jitter store =
        (.invalidShape, store)) ∧
    (∀ st, (body.getD { state := none, ttlDays := none }).state = some st →
      st.truthy = false →
      publishStory C stringify body id created attempts jitter store =
        (.invalidShape, store)) ∧
    (∀ st, (body.getD { state := none, ttlDays := none }).state = some st →
      st.truthy = true → (∀ ls, st.getField "layers" ≠ some (.arr ls)) →
      publishStory C stringify body id created attempts jitter store =
        (.invalidShape, store)) ∧
    (∀ st ls, (body.getD { state := none, ttlDays := none }).state = some st →
      st.truthy = true → st.getField "layers" = some (.arr ls) →
      ls.length = 0 →
      publishStory C stringify body id created attempts jitter store =
        (.emptyLayers, store)) ∧
    (∀ st ls, (body.getD { state := none, ttlDays := none }).state = some st →
      st.truthy = true → st.getField "layers" = some (.arr ls) →
      ls.length > MAX_LAYERS_FREE →
      publishStory C stringify body id created attempts jitter store =
        (.tooManyLayers, store)) ∧
    (∀ st ls, (body.getD { state := none, ttlDays := none }).state = some st →
      st.truthy = true → st.getField "layers" = some (.arr ls) →
      ls.length ≠ 0 → ¬ ls.length > MAX_LAYERS_FREE →
      (body.getD { state := none, ttlDays := none }).ttlDays.getD (.fin 7) =
        .nonFinite →
      publishStory C stringify body id created attempts jitter store =
        (.invalidTTL, store)) ∧
    (∀ st ls q, (body.getD { state := none, ttlDays := none }).state = some st →
      st.truthy = true → st.getField "layers" = some (.arr ls) →
      ls.length ≠ 0 → ¬ ls.length > MAX_LAYERS_FREE →
      (body.getD { state := none, ttlDays := none }).ttlDays.getD (.fin 7) =
        .fin q →
      (q < 1 ∨ q > 60) →
      publishStory C stringify body id created attempts jitter store =
        (.invalidTTL, store)) ∧
    (∀ st, publishStory C stringify (some { state := st, ttlDays := none })
        id created attempts jitter store =
      publishStory C stringify (some { state := st, ttlDays := some (.fin 7) })
        id created attempts jitter store) ∧
    (∀ st s, st.getField "title" = some (.str s) → jsTrim s ≠ "" →
      computedTitle st = (jsTrim s).take MAX_TITLE_LEN) ∧
    (∀ st s, st.getField "title" = some (.str s) → jsTrim s = "" →
      computedTitle st = "Untitled") ∧
    (∀ st, (∀ s, st.getField "title" ≠ some (.str s)) →
      computedTitle st = "Untitled") := by
  refine ⟨?_, ?_, ?_, ?_, ?_, ?_, ?_, ?_, ?_, ?_, ?_⟩
  · intro h
    unfold publishStory
    simp [h]
  · intro st h htr
    unfold publishStory
    simp [h, htr]
  · intro st h htr hnl
    unfold publishStory
    simp only [h, htr]
    cases hl : st.getField "layers" with
    | none => simp [hl]
    | some v =>
      cases v with
      | arr ls => exact absurd hl (hnl ls)
      | null => simp
      | bool b => simp
      | num q => simp
      | str s => simp
      | obj fs => simp
  · intro st ls h htr hl h0
    unfold publishStory
    simp [h, htr, hl, h0]
  · intro st ls h htr hl hgt
    unfold publishStory
    have h0 : ls.length ≠ 0 := by
      unfold MAX_LAYERS_FREE at hgt
      omega
    simp [h, htr, hl, h0, hgt]
  · intro st ls h htr hl h0 hle httl
    unfold publishStory
    simp [h, htr, hl, h0, hle, httl]
  · intro st ls q h htr hl h0 hle httl hq
    unfold publishStory
    simp [h, htr, hl, h0, hle, httl, hq]
  · intro st
    rfl
  · intro st s h hne
    unfold computedTitle
    simp [h, hne]
  · intro st s h hemp
    unfold computedTitle
    simp [h, hemp]
  · intro st hns
    unfold computedTitle
    cases ht : st.getField "title" with
    | none => simp
    | some v =>
      cases v with
      | str s => exact absurd ht (hns s)
      | null => simp
      | bool b => simp
      | num q => simp
      | arr xs => simp
      | obj fs => simp

set_option maxRecDepth 4000 in
/-- Witness for C3 at concrete inputs: a missing body is an invalid
shape; an empty-layers document is rejected as EmptyLayers even though
its ttl is also invalid (short-circuit order); four layers are too
many; a valid document with ttl 0 is an invalid ttl; and the padded
title "  A  " is stored trimmed. -/
theorem validation_order_witness :
    publishStory trivCodec (fun _ => "null") none "abcdefg" 100
      (fun _ => .ok) (fun _ => 0) [] = (.invalidShape, []) ∧
    publishStory trivCodec (fun _ => "null")
      (some ⟨some (.obj [("layers", .arr [])]), some .nonFinite⟩) "abcdefg" 100
      (fun _ => .ok) (fun _ => 0) [] = (.emptyLayers, []) ∧
    publishStory trivCodec (fun _ => "null")
      (some ⟨some (.obj [("layers", .arr [.null, .null, .null, .null])]), none⟩)
      "abcdefg" 100 (fun _ => .ok) (fun _ => 0) [] = (.tooManyLayers, []) ∧
    publishStory trivCodec (fun _ => "null") (some ⟨some docW, some (.fin 0)⟩)
      "abcdefg" 100 (fun _ => .ok) (fun _ => 0) [] = (.invalidTTL, []) ∧
    computedTitle docW = "A" := by
  refine ⟨?_, ?_, ?_, ?_, ?_⟩
  · exact (validation_order trivCodec (fun _ => "null") none "abcdefg" 100
      (fun _ => .ok) (fun _ => 0) []).1 rfl
  · exact (validation_order trivCodec (fun _ => "null")
      (some ⟨some (.obj [("layers", .arr [])]), some .nonFinite⟩) "abcdefg" 100
      (fun _ => .ok) (fun _ => 0) []).2.2.2.1 _ [] rfl (by decide) rfl rfl
  · exact (validation_order trivCodec (fun _ => "null")
      (some ⟨some (.obj [("layers", .arr [.null, .null, .null, .null])]), none⟩)
      "abcdefg" 100 (fun _ => .ok) (fun _ => 0) []).2.2.2.2.1 _
      [.null, .null, .null, .null] rfl (by decide) rfl (by decide)
  · exact (validation_order trivCodec (fun _ => "null")
      (some ⟨some docW, some (.fin 0)⟩) "abcdefg" 100
      (fun _ => .ok) (fun _ => 0) []).2.2.2.2.2.2.1 _ [JsVal.null] 0 rfl
      (by decide) rfl (by decide) (by decide) rfl (by norm_num)
  · have h := (validation_order trivCodec (fun _ => "null") none "abcdefg" 100
      (fun _ => .ok) (fun _ => 0) []).2.2.2.2.2.2.2.2.1 docW "  A  " rfl
      (by decide)
    rw [h]
    decide

/-- C1: the round-trip. Publishing a document that passes validation
(with any ttl accepted by the [1,60] check) and resolving the returned
id before expiry yields the document back, the codec tag being `br64`;
and a legacy plain (untagged) record holding the same serialized
document resolves to the document through the same decoder: on each
tag, encode followed by decode is the identity on the serialized
document. `JSON.parse` is abstract; its inversion of `JSON.stringify`
on this document is the `hparse` hypothesis. -/
theorem publish_resolve_roundtrip (C : Codec) (stringify : JsVal → String)
    (parse : List Nat → Option JsVal) (body : Option PublishBody)
    (id ti : String) (created now2 : Nat) (attempts attempts2 : Nat → DbAttempt)
    (jitter : Nat → Nat) (store : Store) (st : JsVal) (ls : List JsVal) (q : ℚ)
    (hbody : (body.getD { state := none, ttlDays := none }).state = some st)
    (htr : st.truthy = true)
    (hlay : st.getField "layers" = some (.arr ls))
    (hne0 : ls.length ≠ 0)
    (hle : ¬ ls.length > MAX_LAYERS_FREE)
    (httl : (body.getD { state := none, ttlDays := none }).ttlDays.getD
      (.fin 7) = .fin q)
    (hq : ¬ (q < 1 ∨ q > 60))
    (hsmall : ¬ (encodeStateBrotliBase64 C
      (utf8Bytes (stringify st))).b64Bytes > MAX_STATE_BYTES)
    (hatt : attempts 0 = .ok) (hatt2 : attempts2 0 = .ok)
    (hid : idPattern id = true)
    (hfresh : selectById store id = none)
    (hparse : parse (utf8Bytes (stringify st)) = some st)
    (hbefore : ((now2 : Nat) : ℚ) ≤ (created : ℚ) + q * 86400) :
    resolveStory C parse attempts2 id now2
        (publishStory C stringify body id created attempts jitter store).2 =
      .ok id (computedTitle st) st ∧
    resolveStory C parse attempts2 id now2
        (insertRow store
          { id := id, created_at := created,
            expires_at := some ((created : ℚ) + q * 86400), title := ti,
            state_json := stringify st, encoding := none }) =
      .ok id ti st := by
  have hnotlt : ¬ ((created : ℚ) + q * 86400 < ((now2 : Nat) : ℚ)) :=
    not_lt.mpr hbefore
  have hexp : rowExpiredTruthy (some ((created : ℚ) + q * 86400)) now2 = false := by
    unfold rowExpiredTruthy
    simp [hnotlt]
  constructor
  · have hpub : publishStory C stringify body id created attempts jitter store =
        (.ok id ((created : ℚ) + q * 86400),
         insertRow store
           { id := id, created_at := created,
             expires_at := some ((created : ℚ) + q * 86400),
             title := computedTitle st,
             state_json := (encodeStateBrotliBase64 C
               (utf8Bytes (stringify st))).b64,
             encoding := some "br64" }) := by
      unfold publishStory
      rw [runWithRetry_ok attempts jitter 3 0 hatt]
      simp [hbody, htr, hlay, hne0, hle, httl, hq, hsmall]
    rw [hpub]
    have hrow := selectById_insertRow store
      { id := id, created_at := created,
        expires_at := some ((created : ℚ) + q * 86400),
        title := computedTitle st,
        state_json := (encodeStateBrotliBase64 C (utf8Bytes (stringify st))).b64,
        encoding := some "br64" } id hfresh rfl
    have hdec : decodeRow C parse
        { id := id, created_at := created,
          expires_at := some ((created : ℚ) + q * 86400),
          title := computedTitle st,
          state_json := (encodeStateBrotliBase64 C (utf8Bytes (stringify st))).b64,
          encoding := some "br64" } = some st := by
      unfold decodeRow
      simp only [if_pos rfl]
      rw [decodeState_encodeState C _ (utf8Bytes_lt _)]
      simp [hparse]
    unfold resolveStory
    simp [hid, hatt2, hrow, hexp, hdec]
  · have hrow := selectById_insertRow store
      { id := id, created_at := created,
        expires_at := some ((created : ℚ) + q * 86400), title := ti,
        state_json := stringify st, encoding := none } id hfresh rfl
    have hdec : decodeRow C parse
        { id := id, created_at := created,
          expires_at := some ((created : ℚ) + q * 86400), title := ti,
          state_json := stringify st, encoding := none } = some st := by
      unfold decodeRow
      simp [hparse]
    unfold resolveStory
    simp [hid, hatt2, hrow, hexp, hdec]

/-- Witness for C1 at a concrete input: the one-layer document, the
identity codec and a parser recognising its serialization; the record
published at time 100 with the default ttl resolves at time 200 to the
original document, for both the br64-tagged row that publish wrote and
a legacy untagged row holding the plain serialization. -/
theorem publish_resolve_roundtrip_witness :
    resolveStory trivCodec (constParse "null" docW) (fun _ => .ok) "abcdefg" 200
        (publishStory trivCodec (fun _ => "null") (some ⟨some docW, none⟩)
          "abcdefg" 100 (fun _ => .ok) (fun _ => 0) []).2 =
      .ok "abcdefg" (computedTitle docW) docW ∧
    resolveStory trivCodec (constParse "null" docW) (fun _ => .ok) "abcdefg" 200
        (insertRow []
          { id := "abcdefg", created_at := 100,
            expires_at := some ((100 : ℚ) + 7 * 86400), title := "legacy",
            state_json := "null", encoding := none }) =
      .ok "abcdefg" "legacy" docW := by
  have h := publish_resolve_roundtrip trivCodec (fun _ => "null")
    (constParse "null" docW) (some ⟨some docW, none⟩) "abcdefg" "legacy"
    100 200 (fun _ => .ok) (fun _ => .ok) (fun _ => 0) [] docW [JsVal.null] 7
    rfl (by decide) rfl (by decide) (by decide) rfl (by norm_num) (by decide)
    rfl rfl (by decide) rfl (by simp [constParse]) (by norm_num)
  exact h

/-- The delays waited during a retried run, whatever its outcome. -/
def RetryResult.delays : RetryResult → List Nat
  | .success ds => ds
  | .busyFail ds => ds
  | .otherFail ds => ds

theorem RetryResult.delays_consDelay (d : Nat) (r : RetryResult) :
    (RetryResult.consDelay d r).delays = d :: r.delays := by
  cases r <;> rfl

theorem runWithRetry_err (attempts : Nat → DbAttempt) (jitter : Nat → Nat)
    (retries k : Nat) (h : attempts k = .err) :
    runWithRetryModel attempts jitter retries k = .otherFail [] := by
  cases retries <;> · unfold runWithRetryModel; simp [h]

theorem runWithRetry_delays_le (attempts : Nat → DbAttempt)
    (jitter : Nat → Nat) (retries k : Nat) :
    (runWithRetryModel attempts jitter retries k).delays.length ≤ retries := by
  induction retries generalizing k with
  | zero =>
    unfold runWithRetryModel
    cases attempts k <;> simp [RetryResult.delays]
  | succ r ih =>
    unfold runWithRetryModel
    cases attempts k with
    | ok => simp [RetryResult.delays]
    | err => simp [RetryResult.delays]
    | busy =>
      simp only [RetryResult.delays_consDelay, List.length_cons]
      exact Nat.succ_le_succ (ih (k + 1))

theorem runWithRetry_allBusy (attempts : Nat → DbAttempt)
    (jitter : Nat → Nat) (retries k : Nat)
    (h : ∀ i, attempts i = .busy) :
    runWithRetryModel attempts jitter retries k =
      .busyFail ((List.range retries).map (fun i => 200 + jitter (k + i))) := by
  induction retries generalizing k with
  | zero =>
    unfold runWithRetryModel
    simp [h k]
  | succ r ih =>
    unfold runWithRetryModel
    rw [h k]
    rw [ih (k + 1)]
    simp only [RetryResult.consDelay, List.range_succ_eq_map, List.map_cons,
      List.map_map]
    have htail : List.map ((fun i => 200 + jitter (k + i)) ∘ Nat.succ)
        (List.range r) =
        List.map (fun i => 200 + jitter (k + 1 + i)) (List.range r) := by
      apply List.map_congr_left
      intro i _
      have harith : k + (i + 1) = k + 1 + i := by omega
      simp [Function.comp, harith]
    rw [htail]
    simp

/-- Counterexample to C6: with every attempt busy and a fixed jitter of
50, the insert path's `runWithRetry` waits 250 ms before every retry —
the delay does not increase per attempt — and the sweeper's
`purgeExpired`, after its three (increasing) backoffs, does not surface
the exhausted failure as an error at all: it swallows it. -/
theorem retry_policy_cex :
    runWithRetryModel (fun _ => .busy) (fun _ => 50) 3 0 =
      .busyFail [250, 250, 250] ∧
    ¬ (250 < 250) ∧
    purgeExpiredModel (fun _ => .busy) (fun _ => 50) 9 [] 3 0 =
      .swallowed [350, 650, 950] [] := by
  refine ⟨rfl, by decide, rfl⟩

/-- C6 as amended: `insert` and `deleteExpired` retry only on the busy
condition with bounded attempts (3 retries each as invoked); both use a
randomized base-plus-jitter backoff, but only `deleteExpired` increases
the base per attempt (300·attempt); the insert path waits a constant
base of 200 ms plus jitter. An insert whose retries are exhausted
surfaces as the retryable `dbBusy` response, distinct from every
validation rejection, with nothing persisted; the sweeper swallows its
exhausted failure instead of surfacing it; and the read path uses its
first engine attempt only — it never retries, surfacing a first-attempt
busy directly. -/
theorem retry_policy_amended (C : Codec) (stringify : JsVal → String)
    (body : Option PublishBody) (id : String) (created : Nat)
    (attempts attempts2 attempts3 : Nat → DbAttempt) (jitter : Nat → Nat)
    (store : Store) (st : JsVal) (ls : List JsVal) (q : ℚ)
    (parse : List Nat → Option JsVal) (now : Nat) (k retries : Nat)
    (hbody : (body.getD { state := none, ttlDays := none }).state = some st)
    (htr : st.truthy = true)
    (hlay : st.getField "layers" = some (.arr ls))
    (hne0 : ls.length ≠ 0)
    (hle : ¬ ls.length > MAX_LAYERS_FREE)
    (httl : (body.getD { state := none, ttlDays := none }).ttlDays.getD
      (.fin 7) = .fin q)
    (hq : ¬ (q < 1 ∨ q > 60))
    (hsmall : ¬ (encodeStateBrotliBase64 C
      (utf8Bytes (stringify st))).b64Bytes > MAX_STATE_BYTES)
    (hbusyall : ∀ i, attempts i = .busy)
    (hjit : ∀ i, jitter i < 200)
    (hid : idPattern id = true)
    (hbusy0 : attempts3 0 = .busy)
    (hsame : attempts3 0 = attempts2 0) :
    (∀ a : Nat → DbAttempt, a k = .ok →
      runWithRetryModel a jitter retries k = .success []) ∧
    (∀ a : Nat → DbAttempt, a k = .err →
      runWithRetryModel a jitter retries k = .otherFail []) ∧
    (∀ a : Nat → DbAttempt,
      (runWithRetryModel a jitter retries k).delays.length ≤ retries) ∧
    (runWithRetryModel attempts jitter retries k =
      .busyFail ((List.range retries).map (fun i => 200 + jitter (k + i)))) ∧
    (purgeExpiredModel attempts jitter now store 3 k =
      .swallowed [300 + jitter k, 600 + jitter (k + 1), 900 + jitter (k + 2)]
        store ∧
      300 + jitter k < 600 + jitter (k + 1) ∧
      600 + jitter (k + 1) < 900 + jitter (k + 2)) ∧
    (publishStory C stringify body id created attempts jitter store =
      (.dbBusy, store) ∧
      (.dbBusy : PublishOutcome) ≠ .invalidShape ∧
      (.dbBusy : PublishOutcome) ≠ .emptyLayers ∧
      (.dbBusy : PublishOutcome) ≠ .tooManyLayers ∧
      (.dbBusy : PublishOutcome) ≠ .invalidTTL) ∧
    (resolveStory C parse attempts3 id now store = .dbBusy ∧
      resolveStory C parse attempts3 id now store =
        resolveStory C parse attempts2 id now store) := by
  refine ⟨?_, ?_, ?_, ?_, ?_, ?_, ?_⟩
  · intro a ha
    exact runWithRetry_ok a jitter retries k ha
  · intro a ha
    exact runWithRetry_err a jitter retries k ha
  · intro a
    exact runWithRetry_delays_le a jitter retries k
  · exact runWithRetry_allBusy attempts jitter retries k hbusyall
  · refine ⟨?_, by have := hjit k; have := hjit (k + 1); omega,
      by have := hjit (k + 1); have := hjit (k + 2); omega⟩
    unfold purgeExpiredModel
    rw [hbusyall k]
    unfold purgeExpiredModel
    rw [hbusyall (k + 1)]
    unfold purgeExpiredModel
    rw [hbusyall (k + 2)]
    unfold purgeExpiredModel
    rw [hbusyall (k + 3)]
    rfl
  · refine ⟨?_, by simp, by simp, by simp, by simp⟩
    unfold publishStory
    rw [runWithRetry_allBusy attempts jitter 3 0 hbusyall]
    simp [hbody, htr, hlay, hne0, hle, httl, hq, hsmall]
  · constructor
    · unfold resolveStory
      simp [hid, hbusy0]
    · unfold resolveStory
      rw [hsame]

/-- Witness for C6's amended theorem at concrete inputs: all-busy
engine, jitter 50, the one-layer document. -/
theorem retry_policy_amended_witness :
    (runWithRetryModel (fun _ => .busy) (fun _ => 50) 3 0 =
      .busyFail ((List.range 3).map (fun _ => 200 + 50))) ∧
    purgeExpiredModel (fun _ => .busy) (fun _ => 50) 9 [] 3 0 =
      .swallowed [300 + 50, 600 + 50, 900 + 50] [] ∧
    publishStory trivCodec (fun _ => "null") (some ⟨some docW, none⟩)
      "abcdefg" 100 (fun _ => .busy) (fun _ => 50) [] = (.dbBusy, []) ∧
    resolveStory trivCodec (constParse "null" docW) (fun _ => .busy)
      "abcdefg" 9 [] = .dbBusy := by
  have h := retry_policy_amended trivCodec (fun _ => "null")
    (some ⟨some docW, none⟩) "abcdefg" 100 (fun _ => .busy) (fun _ => .busy)
    (fun _ => .busy) (fun _ => 50) [] docW [JsVal.null] 7
    (constParse "null" docW) 9 0 3
    rfl (by decide) rfl (by decide) (by decide) rfl (by norm_num) (by decide)
    (fun _ => rfl) (by intro i; norm_num) (by decide) rfl rfl
  exact ⟨h.2.2.2.1, h.2.2.2.2.1.1, h.2.2.2.2.2.1.1, h.2.2.2.2.2.2.1⟩

/-- C10: every record a successful publish inserts carries
`expires_at = created_at + ttl·86400` with the accepted ttl in [1,60],
so it is non-null and strictly above `created_at` (in particular
nonzero and positive): publish never writes a never-expiring record
even though the schema allows a null `expires_at`, and on such records
the read path's truthiness test agrees with the sweeper's predicate at
every clock — the falsy-zero case is unreachable for published
records. -/
theorem publish_expiry_invariant (C : Codec) (stringify : JsVal → String)
    (body : Option PublishBody) (id : String) (created : Nat)
    (attempts : Nat → DbAttempt) (jitter : Nat → Nat) (store : Store)
    (pid : String) (pex : ℚ)
    (h : (publishStory C stringify body id created attempts jitter store).1 =
      .ok pid pex) :
    ∃ q : ℚ, ∃ row : StoryRow,
      1 ≤ q ∧ q ≤ 60 ∧ pex = (created : ℚ) + q * 86400 ∧
      (publishStory C stringify body id created attempts jitter store).2 =
        insertRow store row ∧
      row.expires_at = some pex ∧ row.created_at = created ∧
      (created : ℚ) < pex ∧ pex ≠ 0 ∧
      (∀ now, rowExpiredTruthy (some pex) now = sweepExpired (some pex) now) := by
  unfold publishStory at h
  cases hst : (body.getD { state := none, ttlDays := none }).state with
  | none => simp [hst] at h
  | some st =>
    by_cases htr : st.truthy = true
    case neg =>
      simp only [Bool.not_eq_true] at htr
      simp [hst, htr] at h
    case pos =>
    cases hl : st.getField "layers" with
    | none => simp [hst, htr, hl] at h
    | some v =>
      cases v with
      | null => simp [hst, htr, hl] at h
      | bool b => simp [hst, htr, hl] at h
      | num qq => simp [hst, htr, hl] at h
      | str s => simp [hst, htr, hl] at h
      | obj fs => simp [hst, htr, hl] at h
      | arr ls =>
        by_cases h0 : ls.length = 0
        case pos => simp [hst, htr, hl, h0] at h
        case neg =>
        by_cases hgt : ls.length > MAX_LAYERS_FREE
        case pos => simp [hst, htr, hl, h0, hgt] at h
        case neg =>
        cases httlc : (body.getD { state := none, ttlDays := none
            }).ttlDays.getD (.fin 7) with
        | nonFinite => simp [hst, htr, hl, h0, hgt, httlc] at h
        | fin q =>
          by_cases hq : (q < 1 ∨ q > 60)
          case pos => simp [hst, htr, hl, h0, hgt, httlc, hq] at h
          case neg =>
          by_cases hsz : (encodeStateBrotliBase64 C
            (utf8Bytes (stringify st))).b64Bytes > MAX_STATE_BYTES
          case pos => simp [hst, htr, hl, h0, hgt, httlc, hq, hsz] at h
          case neg =>
          cases hrun : runWithRetryModel attempts jitter 3 0 with
          | busyFail ds => simp [hst, htr, hl, h0, hgt, httlc, hq, hsz, hrun] at h
          | otherFail ds => simp [hst, htr, hl, h0, hgt, httlc, hq, hsz, hrun] at h
          | success ds =>
            simp only [hst, htr, hl, h0, hgt, httlc, hq, hsz, hrun] at h
            have hpub : publishStory C stringify body id created attempts
                jitter store =
                (.ok id ((created : ℚ) + q * 86400),
                 insertRow store
                   { id := id, created_at := created,
                     expires_at := some ((created : ℚ) + q * 86400),
                     title := computedTitle st,
                     state_json := (encodeStateBrotliBase64 C
                       (utf8Bytes (stringify st))).b64,
                     encoding := some "br64" }) := by
              unfold publishStory
              simp [hst, htr, hl, h0, hgt, httlc, hq, hsz, hrun]
            simp at h
            obtain ⟨hid, hex⟩ := h
            push_neg at hq
            have hq0 : (0 : ℚ) < q := lt_of_lt_of_le one_pos hq.1
            have hmul : (0 : ℚ) < q * 86400 := by positivity
            have hc : (0 : ℚ) ≤ (created : ℚ) := Nat.cast_nonneg created
            have hlt : (created : ℚ) < pex := by
              rw [← hex]
              linarith
            have hne : pex ≠ 0 := by
              intro hzero
              rw [hzero] at hlt
              linarith
            refine ⟨q,
              { id := id, created_at := created,
                expires_at := some ((created : ℚ) + q * 86400),
                title := computedTitle st,
                state_json := (encodeStateBrotliBase64 C
                  (utf8Bytes (stringify st))).b64,
                encoding := some "br64" },
              hq.1, hq.2, hex.symm, ?_, ?_, rfl, hlt, hne, ?_⟩
            · rw [hpub]
            · rw [← hex]
            · intro nowc
              unfold rowExpiredTruthy sweepExpired
              simp [hne]

/-- Witness for C10 at a concrete input: the one-layer document
published at time 100 with the default ttl of 7 days. -/
theorem publish_expiry_invariant_witness :
    ∃ q : ℚ, ∃ row : StoryRow,
      1 ≤ q ∧ q ≤ 60 ∧
      ((100 : Nat) : ℚ) + 7 * 86400 = ((100 : Nat) : ℚ) + q * 86400 ∧
      (publishStory trivCodec (fun _ => "null") (some ⟨some docW, none⟩)
        "abcdefg" 100 (fun _ => .ok) (fun _ => 0) []).2 = insertRow [] row ∧
      row.expires_at = some (((100 : Nat) : ℚ) + 7 * 86400) ∧
      row.created_at = 100 ∧
      ((100 : Nat) : ℚ) < ((100 : Nat) : ℚ) + 7 * 86400 ∧
      ((100 : Nat) : ℚ) + 7 * 86400 ≠ 0 ∧
      (∀ now, rowExpiredTruthy (some (((100 : Nat) : ℚ) + 7 * 86400)) now =
        sweepExpired (some (((100 : Nat) : ℚ) + 7 * 86400)) now) :=
  publish_expiry_invariant trivCodec (fun _ => "null")
    (some ⟨some docW, none⟩) "abcdefg" 100 (fun _ => .ok) (fun _ => 0) []
    "abcdefg" (((100 : Nat) : ℚ) + 7 * 86400) rfl

end Geostory
